import Mathlib

/-!
Shallow embedding of `src/libcharon/sa/ikev2/authenticators/pubkey_authenticator.c`
(IKEv2 public-key authenticator of strongSwan).

Bytes are modelled as `Nat` list elements, chunks (`chunk_t`) as `List Nat`.
External collaborators (keymat, credential store, private/public key objects)
are modelled as explicit function parameters, following the spec's interface
contracts.  Library helpers that live outside the provided source file
(scheme/OID tables, hasher table, ASN.1 leaf encoders) are modelled from the
spec and marked as such in their doc comments.
-/

/-- Hash algorithm identifiers (`hash_algorithm_t`), the subset relevant here. -/
inductive HashAlgorithm
  | HASH_UNKNOWN
  | HASH_IDENTITY
  | HASH_SHA1
  | HASH_SHA256
  | HASH_SHA384
  | HASH_SHA512
  deriving DecidableEq, Repr

/-- Signature scheme tags (`signature_scheme_t`), following the spec's
enumeration (§3 SignatureParams). -/
inductive SignatureScheme
  | SIGN_UNKNOWN
  | SIGN_RSA_EMSA_PKCS1_NULL
  | SIGN_RSA_EMSA_PKCS1_SHA1
  | SIGN_RSA_EMSA_PKCS1_SHA2_256
  | SIGN_RSA_EMSA_PKCS1_SHA2_384
  | SIGN_RSA_EMSA_PKCS1_SHA2_512
  | SIGN_RSA_EMSA_PSS
  | SIGN_ECDSA_256
  | SIGN_ECDSA_384
  | SIGN_ECDSA_521
  | SIGN_ED25519
  deriving DecidableEq, Repr

/-- Modelled from the spec: the C `signature_scheme_t` enum assigns small
consecutive integer values in declaration order; the fallback dedup loop in
`select_signature_schemes` compares such a value against raw bytes read from
the candidate array, so the numeric encoding must be explicit. -/
def schemeEnc : SignatureScheme → Nat
  | .SIGN_UNKNOWN => 0
  | .SIGN_RSA_EMSA_PKCS1_NULL => 1
  | .SIGN_RSA_EMSA_PKCS1_SHA1 => 2
  | .SIGN_RSA_EMSA_PKCS1_SHA2_256 => 3
  | .SIGN_RSA_EMSA_PKCS1_SHA2_384 => 4
  | .SIGN_RSA_EMSA_PKCS1_SHA2_512 => 5
  | .SIGN_RSA_EMSA_PSS => 6
  | .SIGN_ECDSA_256 => 7
  | .SIGN_ECDSA_384 => 8
  | .SIGN_ECDSA_521 => 9
  | .SIGN_ED25519 => 10

/-- RSASSA-PSS parameter block (`rsa_pss_params_t`): hash, MGF1 hash and salt
length (§3 SignatureParams). -/
structure RsaPssParams where
  hash : HashAlgorithm
  mgf1Hash : HashAlgorithm
  saltLen : Nat
  deriving DecidableEq, Repr

/-- `signature_params_t`: a scheme tag plus an optional scheme-specific
parameter block (only PSS carries one). -/
structure SignatureParams where
  scheme : SignatureScheme
  params : Option RsaPssParams
  deriving DecidableEq, Repr

/-- Key types (`key_type_t`), the subset relevant here. -/
inductive KeyType
  | KEY_ANY
  | KEY_RSA
  | KEY_ECDSA
  | KEY_ED25519
  deriving DecidableEq, Repr

/-- Modelled from the spec: `key_type_from_signature_scheme` (credential
library, outside the provided source) derives the implied key type from a
scheme (§4.1 "Derives the implied key type from the scheme"). -/
def key_type_from_signature_scheme : SignatureScheme → KeyType
  | .SIGN_UNKNOWN => .KEY_ANY
  | .SIGN_RSA_EMSA_PKCS1_NULL => .KEY_RSA
  | .SIGN_RSA_EMSA_PKCS1_SHA1 => .KEY_RSA
  | .SIGN_RSA_EMSA_PKCS1_SHA2_256 => .KEY_RSA
  | .SIGN_RSA_EMSA_PKCS1_SHA2_384 => .KEY_RSA
  | .SIGN_RSA_EMSA_PKCS1_SHA2_512 => .KEY_RSA
  | .SIGN_RSA_EMSA_PSS => .KEY_RSA
  | .SIGN_ECDSA_256 => .KEY_ECDSA
  | .SIGN_ECDSA_384 => .KEY_ECDSA
  | .SIGN_ECDSA_521 => .KEY_ECDSA
  | .SIGN_ED25519 => .KEY_ED25519

/-- Modelled from the spec: `hasher_from_signature_scheme` (credential
library, outside the provided source) gives the hash a scheme requires; for
PSS the hash comes from the parameter block (§4.2 "whose required hash"). -/
def hasher_from_signature_scheme (scheme : SignatureScheme)
    (params : Option RsaPssParams) : HashAlgorithm :=
  match scheme, params with
  | .SIGN_RSA_EMSA_PSS, some pss => pss.hash
  | .SIGN_RSA_EMSA_PSS, none => .HASH_UNKNOWN
  | .SIGN_UNKNOWN, _ => .HASH_UNKNOWN
  | .SIGN_RSA_EMSA_PKCS1_NULL, _ => .HASH_UNKNOWN
  | .SIGN_RSA_EMSA_PKCS1_SHA1, _ => .HASH_SHA1
  | .SIGN_RSA_EMSA_PKCS1_SHA2_256, _ => .HASH_SHA256
  | .SIGN_RSA_EMSA_PKCS1_SHA2_384, _ => .HASH_SHA384
  | .SIGN_RSA_EMSA_PKCS1_SHA2_512, _ => .HASH_SHA512
  | .SIGN_ECDSA_256, _ => .HASH_SHA256
  | .SIGN_ECDSA_384, _ => .HASH_SHA384
  | .SIGN_ECDSA_521, _ => .HASH_SHA512
  | .SIGN_ED25519, _ => .HASH_IDENTITY

/-- Algorithm OIDs relevant to signature schemes (`asn1/oid.h` table indices,
outside the provided source; modelled from the spec §4.1). -/
inductive Oid
  | OID_UNKNOWN
  | OID_SHA1_WITH_RSA
  | OID_SHA256_WITH_RSA
  | OID_SHA384_WITH_RSA
  | OID_SHA512_WITH_RSA
  | OID_RSASSA_PSS
  | OID_ECDSA_WITH_SHA256
  | OID_ECDSA_WITH_SHA384
  | OID_ECDSA_WITH_SHA512
  | OID_ED25519
  deriving DecidableEq, Repr

/-- Modelled from the spec: `signature_scheme_to_oid` (credential library,
outside the provided source) maps a scheme to its OID, `OID_UNKNOWN` when the
scheme has none (§4.1 build "maps the scheme to its OID (fails if no OID
exists)"). -/
def signature_scheme_to_oid : SignatureScheme → Oid
  | .SIGN_UNKNOWN => .OID_UNKNOWN
  | .SIGN_RSA_EMSA_PKCS1_NULL => .OID_UNKNOWN
  | .SIGN_RSA_EMSA_PKCS1_SHA1 => .OID_SHA1_WITH_RSA
  | .SIGN_RSA_EMSA_PKCS1_SHA2_256 => .OID_SHA256_WITH_RSA
  | .SIGN_RSA_EMSA_PKCS1_SHA2_384 => .OID_SHA384_WITH_RSA
  | .SIGN_RSA_EMSA_PKCS1_SHA2_512 => .OID_SHA512_WITH_RSA
  | .SIGN_RSA_EMSA_PSS => .OID_RSASSA_PSS
  | .SIGN_ECDSA_256 => .OID_ECDSA_WITH_SHA256
  | .SIGN_ECDSA_384 => .OID_ECDSA_WITH_SHA384
  | .SIGN_ECDSA_521 => .OID_ECDSA_WITH_SHA512
  | .SIGN_ED25519 => .OID_ED25519

/-- Modelled from the spec: `signature_scheme_from_oid` (credential library,
outside the provided source) maps an OID back to the scheme, `SIGN_UNKNOWN` if
unmapped (§4.1 parse "maps the OID to a signature scheme"). -/
def signature_scheme_from_oid : Oid → SignatureScheme
  | .OID_UNKNOWN => .SIGN_UNKNOWN
  | .OID_SHA1_WITH_RSA => .SIGN_RSA_EMSA_PKCS1_SHA1
  | .OID_SHA256_WITH_RSA => .SIGN_RSA_EMSA_PKCS1_SHA2_256
  | .OID_SHA384_WITH_RSA => .SIGN_RSA_EMSA_PKCS1_SHA2_384
  | .OID_SHA512_WITH_RSA => .SIGN_RSA_EMSA_PKCS1_SHA2_512
  | .OID_RSASSA_PSS => .SIGN_RSA_EMSA_PSS
  | .OID_ECDSA_WITH_SHA256 => .SIGN_ECDSA_256
  | .OID_ECDSA_WITH_SHA384 => .SIGN_ECDSA_384
  | .OID_ECDSA_WITH_SHA512 => .SIGN_ECDSA_521
  | .OID_ED25519 => .SIGN_ED25519

/-- Byte code used by the modelled ASN.1 layer for an OID (nonzero for every
known OID, so an unknown byte decodes to `OID_UNKNOWN`). -/
def oidCode : Oid → Nat
  | .OID_UNKNOWN => 0
  | .OID_SHA1_WITH_RSA => 1
  | .OID_SHA256_WITH_RSA => 2
  | .OID_SHA384_WITH_RSA => 3
  | .OID_SHA512_WITH_RSA => 4
  | .OID_RSASSA_PSS => 5
  | .OID_ECDSA_WITH_SHA256 => 6
  | .OID_ECDSA_WITH_SHA384 => 7
  | .OID_ECDSA_WITH_SHA512 => 8
  | .OID_ED25519 => 9

/-- Inverse of `oidCode`; unknown bytes give `OID_UNKNOWN`. -/
def oidFromCode (n : Nat) : Oid :=
  match n with
  | 1 => .OID_SHA1_WITH_RSA
  | 2 => .OID_SHA256_WITH_RSA
  | 3 => .OID_SHA384_WITH_RSA
  | 4 => .OID_SHA512_WITH_RSA
  | 5 => .OID_RSASSA_PSS
  | 6 => .OID_ECDSA_WITH_SHA256
  | 7 => .OID_ECDSA_WITH_SHA384
  | 8 => .OID_ECDSA_WITH_SHA512
  | 9 => .OID_ED25519
  | _ => .OID_UNKNOWN

/-- Byte code used by the modelled ASN.1 layer for a hash algorithm. -/
def hashCode : HashAlgorithm → Nat
  | .HASH_UNKNOWN => 0
  | .HASH_IDENTITY => 1
  | .HASH_SHA1 => 2
  | .HASH_SHA256 => 3
  | .HASH_SHA384 => 4
  | .HASH_SHA512 => 5

/-- Inverse of `hashCode` on the encoded range. -/
def hashFromCode (n : Nat) : Option HashAlgorithm :=
  match n with
  | 0 => some .HASH_UNKNOWN
  | 1 => some .HASH_IDENTITY
  | 2 => some .HASH_SHA1
  | 3 => some .HASH_SHA256
  | 4 => some .HASH_SHA384
  | 5 => some .HASH_SHA512
  | _ => none

/-- Modelled from the spec: `rsa_pss_params_build` (credential library,
outside the provided source) serializes the PSS parameter sub-structure
(§4.1). The block carries the hash, the MGF1 hash and the salt length. -/
def rsa_pss_params_build (pss : RsaPssParams) : Option (List Nat) :=
  some [hashCode pss.hash, hashCode pss.mgf1Hash, pss.saltLen]

/-- Modelled from the spec: `rsa_pss_params_parse` (credential library,
outside the provided source) decodes the PSS parameter sub-structure, failing
on malformed input (§4.1). -/
def rsa_pss_params_parse (parameters : List Nat) : Option RsaPssParams :=
  match parameters with
  | [h, m, s] =>
      match hashFromCode h, hashFromCode m with
      | some h2, some m2 => some ⟨h2, m2, s⟩
      | _, _ => none
  | _ => none

/-- Modelled from the spec: `asn1_algorithmIdentifier` (ASN.1 library, outside
the provided source) wraps an OID with empty parameters in an
algorithm-identifier block (§4.1). -/
def asn1_algorithmIdentifier (oid : Oid) : List Nat :=
  [oidCode oid, 0]

/-- Modelled from the spec: `asn1_algorithmIdentifier_params` (ASN.1 library,
outside the provided source) wraps an OID plus a parameter block in an
algorithm-identifier block (§4.1). -/
def asn1_algorithmIdentifier_params (oid : Oid) (parameters : List Nat) :
    List Nat :=
  [oidCode oid, parameters.length] ++ parameters

/-- Modelled from the spec: `asn1_parse_algorithmIdentifier` (ASN.1 library,
outside the provided source) decodes an algorithm-identifier block from the
front of a buffer, extracting the OID and the parameter block; a malformed or
truncated block yields `OID_UNKNOWN` (§4.1). -/
def asn1_parse_algorithmIdentifier (blob : List Nat) : Oid × List Nat :=
  match blob with
  | code :: plen :: rest =>
      if plen ≤ rest.length then (oidFromCode code, rest.take plen)
      else (.OID_UNKNOWN, [])
  | _ => (.OID_UNKNOWN, [])

/-- `parse_signature_auth_data` (source lines 63-101): reads the one-byte
length prefix, skips it, decodes the algorithm identifier, maps the OID to a
scheme (failing on `SIGN_UNKNOWN`), decodes PSS parameters when the scheme is
PSS, derives the key type, and advances the data past the declared length
(`chunk_skip` clamps, modelled by `List.drop`).  Returns the advanced data,
the key type and the signature params, or `none` for `return FALSE`. -/
def parse_signature_auth_data (auth_data : List Nat) :
    Option (List Nat × KeyType × SignatureParams) :=
  if auth_data.length = 0 then
    none
  else
    let len := auth_data.headD 0
    let rest := auth_data.drop 1
    let parsed := asn1_parse_algorithmIdentifier rest
    let scheme := signature_scheme_from_oid parsed.1
    match scheme with
    | .SIGN_UNKNOWN => none
    | .SIGN_RSA_EMSA_PSS =>
        match rsa_pss_params_parse parsed.2 with
        | none => none
        | some pss =>
            some (rest.drop len, key_type_from_signature_scheme scheme,
                  ⟨scheme, some pss⟩)
    | _ =>
        some (rest.drop len, key_type_from_signature_scheme scheme,
              ⟨scheme, none⟩)

/-- `build_signature_auth_data` (source lines 106-134): maps the scheme to its
OID (failing on `OID_UNKNOWN`), serializes PSS parameters when the scheme is
PSS (failing if that fails; a PSS params block that is absent makes the
serializer fail), wraps everything in an algorithm identifier, and prepends
the one-byte length (a C `uint8_t`, hence `% 256`) plus the block to the raw
signature already held in `auth_data`. -/
def build_signature_auth_data (auth_data : List Nat)
    (params : SignatureParams) : Option (List Nat) :=
  let oid := signature_scheme_to_oid params.scheme
  if oid = Oid.OID_UNKNOWN then
    none
  else
    let parametersOpt : Option (List Nat) :=
      if params.scheme = SignatureScheme.SIGN_RSA_EMSA_PSS then
        match params.params with
        | some pss => rsa_pss_params_build pss
        | none => none
      else
        some []
    match parametersOpt with
    | none => none
    | some parameters =>
        let data :=
          if parameters.length ≠ 0 then
            asn1_algorithmIdentifier_params oid parameters
          else
            asn1_algorithmIdentifier oid
        some ([data.length % 256] ++ data ++ auth_data)

/-- One entry of an `auth_cfg_t` rule list.  `sigScheme` is an
`AUTH_RULE_IKE_SIGNATURE_SCHEME` entry, `authClassPubkey` an
`AUTH_RULE_AUTH_CLASS` entry with `AUTH_CLASS_PUBKEY`,
`certValidationSuspended` an `AUTH_RULE_CERT_VALIDATION_SUSPENDED` entry,
`meta` an opaque entry of any other rule (e.g. certificate metadata merged
from a credential-store candidate). -/
inductive AuthItem
  | sigScheme (p : SignatureParams)
  | authClassPubkey
  | certValidationSuspended (b : Bool)
  | meta (n : Nat)
  deriving DecidableEq, Repr

/-- The keying-material component (`keymat_v2_t`), reduced to the two
operations this source file uses: the hash-capability probe and
`get_auth_octets` (which may prune or adjust the candidate scheme list and
returns the signable octets).  The transcript, nonce, identity and reserved
bytes this file forwards unchanged are folded into the function. -/
structure Keymat where
  hash_algorithm_supported : HashAlgorithm → Bool
  get_auth_octets : Bool → List SignatureParams →
    Option (List Nat × List SignatureParams)

/-- A private key object, reduced to the operations this source file uses:
`get_type`, `get_keysize` and `sign` (returning the signature bytes or
failure). -/
structure PrivateKey where
  keyType : KeyType
  keysize : Nat
  sign : SignatureScheme → Option RsaPssParams → List Nat → Option (List Nat)

/-- Whether the auth config contains an `AUTH_RULE_IKE_SIGNATURE_SCHEME`
entry (the `have_config` flag of `select_signature_schemes`). -/
def have_config (auth : List AuthItem) : Bool :=
  auth.any fun e =>
    match e with
    | .sigScheme _ => true
    | _ => false

/-- The explicit-configuration filter of `select_signature_schemes` (source
lines 153-168): keep, in order, each configured scheme whose implied key type
matches the private key's type and whose hash the peer supports. -/
def configSelected (auth : List AuthItem) (key_type : KeyType)
    (hashSupported : HashAlgorithm → Bool) : List SignatureParams :=
  auth.filterMap fun e =>
    match e with
    | .sigScheme c =>
        if key_type = key_type_from_signature_scheme c.scheme ∧
            hashSupported (hasher_from_signature_scheme c.scheme c.params)
              = true then
          some c
        else
          none
    | _ => none

/-- The default-table filter of `select_signature_schemes` (source lines
175-193): from the enumerated standard schemes for the key, skip PSS unless
the `rsa_pss` setting is on, and keep those whose hash the peer supports. -/
def defaultSelected (defaults : List SignatureParams) (rsaPss : Bool)
    (hashSupported : HashAlgorithm → Bool) : List SignatureParams :=
  defaults.filterMap fun c =>
    if c.scheme = SignatureScheme.SIGN_RSA_EMSA_PSS ∧ rsaPss = false then
      none
    else if hashSupported (hasher_from_signature_scheme c.scheme c.params)
        = true then
      some c
    else
      none

/-- The containment probe of the RSA fallback block (source lines 209-217).
The `selected` array stores pointers to heap-allocated `signature_params_t`
(it was created with element size 0), and `array_get(selected, j, &contained)`
copies the stored pointer bytes into the `signature_scheme_t` variable
`contained`; `scheme == contained` therefore compares the scheme's enum value
with the stored pointer value (truncated to the 32-bit enum width), not with
the element's scheme field.  `addrs j` is the heap address of the element at
position `j`. -/
def fallbackFound (addrs : Nat → Nat) (count : Nat)
    (scheme : SignatureScheme) : Bool :=
  (List.range count).any fun j => schemeEnc scheme = addrs j % 2 ^ 32

/-- One iteration of the RSA fallback loop (source lines 205-227): if the
containment probe found nothing and the scheme's hash is peer-supported,
append the scheme (with no parameter block) at the tail. -/
def addFallback (hashSupported : HashAlgorithm → Bool) (addrs : Nat → Nat)
    (selected : List SignatureParams) (scheme : SignatureScheme) :
    List SignatureParams :=
  if fallbackFound addrs selected.length scheme = false ∧
      hashSupported (hasher_from_signature_scheme scheme none) = true then
    selected ++ [⟨scheme, none⟩]
  else
    selected

/-- `select_signature_schemes` (source lines 140-231).  `defaults` stands for
the output of `signature_schemes_for_key(key_type, keysize)` (standard scheme
table, outside the provided source), `rsaPss` for the `rsa_pss` setting, and
`addrs` for the heap addresses of the elements of the `selected` array (see
`fallbackFound`). -/
def select_signature_schemes (hashSupported : HashAlgorithm → Bool)
    (auth : List AuthItem) (keyType : KeyType)
    (defaults : List SignatureParams) (rsaPss : Bool) (addrs : Nat → Nat) :
    List SignatureParams :=
  if have_config auth then
    configSelected auth keyType hashSupported
  else
    let sel := defaultSelected defaults rsaPss hashSupported
    if keyType = KeyType.KEY_RSA then
      [SignatureScheme.SIGN_RSA_EMSA_PKCS1_SHA2_384,
       SignatureScheme.SIGN_RSA_EMSA_PKCS1_SHA2_256].foldl
        (addFallback hashSupported addrs) sel
    else
      sel

/-- Outcome codes (`status_t`), the subset this source file returns. -/
inductive Status
  | SUCCESS
  | FAILED
  | NOT_FOUND
  | INVALID_ARG
  deriving DecidableEq, Repr

/-- The candidate loop of `sign_signature_auth` (source lines 268-285): try
each scheme in order; on the first candidate whose `sign` succeeds and whose
algorithm identifier encodes, return the prefixed auth data; a failure of
either step advances to the next candidate. -/
def signLoop (priv : PrivateKey) (octets : List Nat) :
    List SignatureParams → Option (List Nat)
  | [] => none
  | p :: rest =>
      match priv.sign p.scheme p.params octets with
      | some sig =>
          match build_signature_auth_data sig p with
          | some out => some out
          | none => signLoop priv octets rest
      | none => signLoop priv octets rest

/-- Whether a candidate scheme fails in the `sign_signature_auth` loop:
either signing fails, or signing succeeds but the algorithm-identifier
encoding fails. -/
def candidateFails (priv : PrivateKey) (octets : List Nat)
    (p : SignatureParams) : Bool :=
  match priv.sign p.scheme p.params octets with
  | none => true
  | some sig => (build_signature_auth_data sig p).isNone

/-- `sign_signature_auth` (source lines 242-294): select candidate schemes
(FAILED if none), obtain auth octets together with the keymat-adjusted
candidate list (on failure the loop is skipped and the status stays FAILED),
then run the candidate loop.  Returns the status and, on success, the
complete auth data. -/
def sign_signature_auth (keymat : Keymat) (auth : List AuthItem)
    (priv : PrivateKey) (defaults : List SignatureParams) (rsaPss : Bool)
    (addrs : Nat → Nat) : Status × Option (List Nat) :=
  let schemes := select_signature_schemes keymat.hash_algorithm_supported
    auth priv.keyType defaults rsaPss addrs
  if schemes.length = 0 then
    (Status.FAILED, none)
  else
    match keymat.get_auth_octets false schemes with
    | none => (Status.FAILED, none)
    | some (octets, schemes2) =>
        match signLoop priv octets schemes2 with
        | some out => (Status.SUCCESS, some out)
        | none => (Status.FAILED, none)

/-- `get_auth_octets_scheme` (source lines 300-324): wrap the single scheme in
an array, call `get_auth_octets` (which may replace the scheme), and take the
first element back out (failing when the keymat emptied the array). -/
def get_auth_octets_scheme (keymat : Keymat) (verifyFlag : Bool)
    (scheme : SignatureParams) : Option (List Nat × SignatureParams) :=
  match keymat.get_auth_octets verifyFlag [scheme] with
  | some (octets, s :: _) => some (octets, s)
  | _ => none

/-- Wire authentication-method tags (`auth_method_t`), the subset relevant
here; `AUTH_PSK` stands for a tag outside the recognized set. -/
inductive AuthMethod
  | AUTH_NONE
  | AUTH_RSA
  | AUTH_ECDSA_256
  | AUTH_ECDSA_384
  | AUTH_ECDSA_521
  | AUTH_DS
  | AUTH_PSK
  deriving DecidableEq, Repr

/-- The scheme/auth-method switch of `sign_classic` (source lines 339-371):
RSA keys get PKCS1-SHA1 with the legacy RSA tag; ECDSA keys get the scheme and
tag matching their exact bit size; anything else fails. -/
def classic_scheme_method (keyType : KeyType) (keysize : Nat) :
    Option (SignatureScheme × AuthMethod) :=
  match keyType with
  | .KEY_RSA =>
      some (.SIGN_RSA_EMSA_PKCS1_SHA1, .AUTH_RSA)
  | .KEY_ECDSA =>
      if keysize = 256 then some (.SIGN_ECDSA_256, .AUTH_ECDSA_256)
      else if keysize = 384 then some (.SIGN_ECDSA_384, .AUTH_ECDSA_384)
      else if keysize = 521 then some (.SIGN_ECDSA_521, .AUTH_ECDSA_521)
      else none
  | _ => none

/-- `sign_classic` (source lines 329-390): resolve the legacy scheme and tag
(FAILED when unsupported, the caller-initialized `AUTH_NONE` tag untouched),
get the octets and possibly keymat-adjusted scheme, and sign (with NULL
parameters).  Returns status, the auth-method out-parameter and the auth
data. -/
def sign_classic (keymat : Keymat) (priv : PrivateKey) :
    Status × AuthMethod × Option (List Nat) :=
  match classic_scheme_method priv.keyType priv.keysize with
  | none => (Status.FAILED, AuthMethod.AUTH_NONE, none)
  | some (scheme, method) =>
      match get_auth_octets_scheme keymat false ⟨scheme, none⟩ with
      | none => (Status.FAILED, method, none)
      | some (octets, params2) =>
          match priv.sign params2.scheme none octets with
          | some sig => (Status.SUCCESS, method, some sig)
          | none => (Status.FAILED, method, none)

/-- An AUTH payload (`auth_payload_t`): a one-byte method tag and the raw
data block. -/
structure AuthPayloadW where
  method : AuthMethod
  data : List Nat
  deriving DecidableEq, Repr

/-- `build` (source lines 392-433): no private key yields NOT_FOUND; with the
signature-authentication extension the RFC 7427 path runs (tag `AUTH_DS`),
otherwise the classic path; an AUTH payload is constructed and attached to the
message only when the status is SUCCESS.  The attached payload (or `none`) is
returned alongside the status. -/
def build (keymat : Keymat) (privOpt : Option PrivateKey) (ext : Bool)
    (auth : List AuthItem) (defaults : List SignatureParams) (rsaPss : Bool)
    (addrs : Nat → Nat) : Status × Option AuthPayloadW :=
  match privOpt with
  | none => (Status.NOT_FOUND, none)
  | some priv =>
      let r : Status × AuthMethod × Option (List Nat) :=
        if ext then
          let s := sign_signature_auth keymat auth priv defaults rsaPss addrs
          (s.1, AuthMethod.AUTH_DS, s.2)
        else
          sign_classic keymat priv
      if r.1 = Status.SUCCESS then
        (r.1, (r.2.2).map fun d => ⟨r.2.1, d⟩)
      else
        (r.1, none)

/-- A public key object, reduced to the one operation this source file uses:
`verify(scheme, params, octets, signature)`. -/
structure PublicKey where
  verify : SignatureScheme → Option RsaPssParams → List Nat → List Nat → Bool

/-- One candidate produced by the credential store's trusted-key enumeration:
the public key and the per-candidate auth metadata (`current_auth`). -/
structure CredEntry where
  key : PublicKey
  auth : List AuthItem

/-- Reason tags of the two `INVALID_ARG` log messages in `process`
("unsupported" and "payload invalid"). -/
inductive Reason
  | unsupported
  | payloadInvalid
  deriving DecidableEq, Repr

/-- The trusted-key loop of `process` (source lines 497-521).  `st` is the
running status (`NOT_FOUND` before the first candidate, `FAILED` after any
failed one).  On the first key that verifies, the candidate's auth metadata is
merged into the session auth config, followed by the `AUTH_CLASS_PUBKEY`
entry, the effective scheme, and — when online validation is suspended — the
suspended marker; the loop stops there.  The third component counts the
candidates whose `verify` was invoked. -/
def verifyLoop (p : SignatureParams) (octets data : List Nat)
    (suspended : Bool) (auth : List AuthItem) (st : Status) :
    List CredEntry → Status × List AuthItem × Nat
  | [] => (st, auth, 0)
  | c :: rest =>
      if c.key.verify p.scheme p.params octets data then
        (Status.SUCCESS,
         auth ++ c.auth ++ [AuthItem.authClassPubkey, AuthItem.sigScheme p] ++
           (if suspended then [AuthItem.certValidationSuspended true] else []),
         1)
      else
        match verifyLoop p octets data suspended auth Status.FAILED rest with
        | (s, a, n) => (s, a, n + 1)

/-- The `auth_method` switch of `process` (source lines 456-486): legacy tags
map to their fixed scheme (the key type stays at its `KEY_ECDSA`
initialization except for `AUTH_RSA`), `AUTH_DS` runs
`parse_signature_auth_data` (failure: "payload invalid"), and any other tag
fails as "unsupported". -/
def decode_auth_method : AuthMethod → List Nat →
    Except Reason (KeyType × SignatureParams × List Nat)
  | .AUTH_RSA, data =>
      .ok (.KEY_RSA, ⟨.SIGN_RSA_EMSA_PKCS1_SHA1, none⟩, data)
  | .AUTH_ECDSA_256, data =>
      .ok (.KEY_ECDSA, ⟨.SIGN_ECDSA_256, none⟩, data)
  | .AUTH_ECDSA_384, data =>
      .ok (.KEY_ECDSA, ⟨.SIGN_ECDSA_384, none⟩, data)
  | .AUTH_ECDSA_521, data =>
      .ok (.KEY_ECDSA, ⟨.SIGN_ECDSA_521, none⟩, data)
  | .AUTH_DS, data =>
      match parse_signature_auth_data data with
      | some (rest, kt, p) => .ok (kt, p, rest)
      | none => .error .payloadInvalid
  | _, _ => .error .unsupported

/-- Observable outcome of `process`: the returned status, the session auth
config after the call, the reason of an `INVALID_ARG` log (if any), and how
many trusted-key candidates were tried. -/
structure ProcessResult where
  status : Status
  auth : List AuthItem
  reason : Option Reason
  tried : Nat
  deriving DecidableEq, Repr

/-- `process` (source lines 435-531): extract the AUTH payload (FAILED when
absent), decode the method tag, resolve octets and the effective scheme via
the keymat (FAILED on failure), then enumerate the trusted keys for the
decoded key type (with `online` the negation of the suspended condition) and
run the verification loop starting from `NOT_FOUND`. -/
def process (keymat : Keymat) (creds : KeyType → Bool → List CredEntry)
    (suspended : Bool) (auth : List AuthItem)
    (payload : Option AuthPayloadW) : ProcessResult :=
  match payload with
  | none => ⟨Status.FAILED, auth, none, 0⟩
  | some pl =>
      match decode_auth_method pl.method pl.data with
      | .error r => ⟨Status.INVALID_ARG, auth, some r, 0⟩
      | .ok (kt, p0, data) =>
          match get_auth_octets_scheme keymat true p0 with
          | none => ⟨Status.FAILED, auth, none, 0⟩
          | some (octets, p) =>
              match verifyLoop p octets data suspended auth Status.NOT_FOUND
                  (creds kt (!suspended)) with
              | (st, a, n) => ⟨st, a, none, n⟩

/-- Modelled from the spec: §4.2 step 1 — with explicit configuration, the
candidate set is exactly the configured schemes whose key type matches the
private key's type and whose hash the peer supports, order preserved. -/
def configSchemesSpec (auth : List AuthItem) (kt : KeyType)
    (hs : HashAlgorithm → Bool) : List SignatureParams :=
  (auth.filterMap fun e =>
    match e with
    | AuthItem.sigScheme c => some c
    | _ => none).filter fun c =>
      decide (kt = key_type_from_signature_scheme c.scheme) &&
        hs (hasher_from_signature_scheme c.scheme c.params)

/-- Modelled from the spec: §4.3 — the legacy scheme selector as a fixed
table: RSA keys map to PKCS1-SHA1 with the legacy RSA tag; ECDSA keys map by
exact bit size 256/384/521; everything else fails. -/
def select_classic_spec (keyType : KeyType) (keysize : Nat) :
    Option (SignatureScheme × AuthMethod) :=
  match keyType with
  | .KEY_RSA =>
      some (.SIGN_RSA_EMSA_PKCS1_SHA1, .AUTH_RSA)
  | .KEY_ECDSA =>
      if keysize = 256 then some (.SIGN_ECDSA_256, .AUTH_ECDSA_256)
      else if keysize = 384 then some (.SIGN_ECDSA_384, .AUTH_ECDSA_384)
      else if keysize = 521 then some (.SIGN_ECDSA_521, .AUTH_ECDSA_521)
      else none
  | _ => none

theorem hashFromCode_hashCode (h : HashAlgorithm) :
    hashFromCode (hashCode h) = some h := by
  cases h <;> rfl

/-- C3: for every SignatureParams whose scheme the codec's build accepts
(including PSS with its parameter block), running build and then parse on the
produced bytes succeeds and yields a SignatureParams with an equal scheme
and, for PSS, an equal parameter block (hash, mask-generation hash and salt
length); the trailing signature bytes are recovered unchanged and the key
type is the one the scheme implies. -/
theorem build_parse_roundtrip_c3 (p : SignatureParams) (sig out : List Nat)
    (h : build_signature_auth_data sig p = some out) :
    parse_signature_auth_data out =
      some (sig, key_type_from_signature_scheme p.scheme,
        ⟨p.scheme,
         if p.scheme = SignatureScheme.SIGN_RSA_EMSA_PSS then p.params
         else none⟩) := by
  obtain ⟨s, pr⟩ := p
  cases s
  case SIGN_UNKNOWN =>
    simp [build_signature_auth_data, signature_scheme_to_oid] at h
  case SIGN_RSA_EMSA_PKCS1_NULL =>
    simp [build_signature_auth_data, signature_scheme_to_oid] at h
  case SIGN_RSA_EMSA_PSS =>
    cases pr with
    | none =>
        simp [build_signature_auth_data, signature_scheme_to_oid] at h
    | some pss =>
        simp [build_signature_auth_data, signature_scheme_to_oid,
          rsa_pss_params_build, asn1_algorithmIdentifier_params, oidCode] at h
        subst h
        simp [parse_signature_auth_data, asn1_parse_algorithmIdentifier,
          oidFromCode, signature_scheme_from_oid, rsa_pss_params_parse,
          hashFromCode_hashCode, key_type_from_signature_scheme, List.take,
          Nat.le_add_left]
  all_goals
    simp [build_signature_auth_data, signature_scheme_to_oid,
      asn1_algorithmIdentifier, oidCode] at h
  all_goals
    subst h
  all_goals
    simp [parse_signature_auth_data, asn1_parse_algorithmIdentifier,
      oidFromCode, signature_scheme_from_oid,
      key_type_from_signature_scheme]

/-- Concrete PSS parameter set used by the C3 witness. -/
def pssW : SignatureParams :=
  ⟨SignatureScheme.SIGN_RSA_EMSA_PSS,
   some ⟨HashAlgorithm.HASH_SHA256, HashAlgorithm.HASH_SHA256, 32⟩⟩

/-- Witness for C3: the roundtrip theorem applied to a concrete PSS
SignatureParams and signature. -/
theorem build_parse_roundtrip_c3_witness :
    parse_signature_auth_data [5, 5, 3, 3, 3, 32, 1, 2] =
      some ([1, 2], key_type_from_signature_scheme pssW.scheme,
        ⟨pssW.scheme,
         if pssW.scheme = SignatureScheme.SIGN_RSA_EMSA_PSS then pssW.params
         else none⟩) :=
  build_parse_roundtrip_c3 pssW [1, 2] [5, 5, 3, 3, 3, 32, 1, 2] rfl

/-- C6: the legacy scheme selector is the fixed total map of §4.3 — RSA keys
yield PKCS1-SHA1 with the legacy RSA tag, ECDSA keys of exact bit size
256/384/521 yield the matching ECDSA scheme and tag, and any other size or
key type fails, in which case `sign_classic` returns FAILED with no scheme
picked (the tag stays at its `AUTH_NONE` initialization and no auth data is
produced). -/
theorem sign_classic_scheme_map_c6 (kt : KeyType) (n : Nat)
    (keymat : Keymat) (priv : PrivateKey)
    (hk : priv.keyType = kt) (hn : priv.keysize = n) :
    classic_scheme_method kt n = select_classic_spec kt n ∧
    (classic_scheme_method kt n = none →
      sign_classic keymat priv =
        (Status.FAILED, AuthMethod.AUTH_NONE, none)) := by
  constructor
  · cases kt <;> rfl
  · intro hnone
    simp [sign_classic, hk, hn, hnone]

/-- Concrete keymat used by witnesses: every hash is supported and
`get_auth_octets` returns empty octets with the candidate list unchanged. -/
def kmW : Keymat :=
  ⟨fun _ => true, fun _ l => some ([], l)⟩

/-- Concrete ECDSA private key of unsupported size 300 used by the C6
witness. -/
def privEcdsa300 : PrivateKey :=
  ⟨KeyType.KEY_ECDSA, 300, fun _ _ _ => some [7]⟩

/-- Witness for C6: an ECDSA key of bit size 300 is rejected by the legacy
selector and `sign_classic` fails without picking a scheme. -/
theorem sign_classic_scheme_map_c6_witness :
    classic_scheme_method KeyType.KEY_ECDSA 300 =
      select_classic_spec KeyType.KEY_ECDSA 300 ∧
    sign_classic kmW privEcdsa300 =
      (Status.FAILED, AuthMethod.AUTH_NONE, none) := by
  obtain ⟨h1, h2⟩ :=
    sign_classic_scheme_map_c6 KeyType.KEY_ECDSA 300 kmW privEcdsa300 rfl rfl
  exact ⟨h1, h2 (by decide)⟩

/-- With explicit configuration present, the negotiator output is the
configured-scheme filter and nothing else. -/
theorem select_with_config (hs : HashAlgorithm → Bool) (auth : List AuthItem)
    (kt : KeyType) (defaults : List SignatureParams) (rsaPss : Bool)
    (addrs : Nat → Nat) (hcfg : have_config auth = true) :
    select_signature_schemes hs auth kt defaults rsaPss addrs =
      configSelected auth kt hs := by
  simp [select_signature_schemes, hcfg]

theorem configSelected_eq_spec (auth : List AuthItem) (kt : KeyType)
    (hs : HashAlgorithm → Bool) :
    configSelected auth kt hs = configSchemesSpec auth kt hs := by
  induction auth with
  | nil => rfl
  | cons e rest ih =>
      cases e with
      | sigScheme c =>
          by_cases hc : kt = key_type_from_signature_scheme c.scheme ∧
              hs (hasher_from_signature_scheme c.scheme c.params) = true
          · simp [configSelected, configSchemesSpec, List.filterMap_cons,
              List.filter_cons, hc.1, hc.2] at ih ⊢
            exact ih
          · simp [configSelected, configSchemesSpec, List.filterMap_cons,
              List.filter_cons, if_neg hc] at ih ⊢
            exact ih
      | authClassPubkey =>
          simpa [configSelected, configSchemesSpec] using ih
      | certValidationSuspended b =>
          simpa [configSelected, configSchemesSpec] using ih
      | meta n =>
          simpa [configSelected, configSchemesSpec] using ih

/-- C8: whenever the local auth configuration contains at least one explicit
signature-scheme constraint, the negotiator's output is exactly the
configured schemes whose key type matches the private key's type and whose
hash the peer supports, in configured order, with no RSA fallback schemes
injected; and if that filtered set is empty, the self-describing signing path
fails with no candidate. -/
theorem select_explicit_config_c8 (keymat : Keymat) (auth : List AuthItem)
    (priv : PrivateKey) (defaults : List SignatureParams) (rsaPss : Bool)
    (addrs : Nat → Nat) (hcfg : have_config auth = true) :
    select_signature_schemes keymat.hash_algorithm_supported auth
        priv.keyType defaults rsaPss addrs =
      configSchemesSpec auth priv.keyType keymat.hash_algorithm_supported ∧
    (configSchemesSpec auth priv.keyType keymat.hash_algorithm_supported
        = [] →
      sign_signature_auth keymat auth priv defaults rsaPss addrs =
        (Status.FAILED, none)) := by
  have hsel := select_with_config keymat.hash_algorithm_supported auth
    priv.keyType defaults rsaPss addrs hcfg
  have heq := configSelected_eq_spec auth priv.keyType
    keymat.hash_algorithm_supported
  refine ⟨hsel.trans heq, fun he => ?_⟩
  simp [sign_signature_auth, hsel, heq, he]

/-- Auth configuration used by the C8 witness: one explicit ECDSA-256 scheme
constraint (plus an unrelated entry), filtered out for an RSA key. -/
def authCfgW : List AuthItem :=
  [AuthItem.sigScheme ⟨SignatureScheme.SIGN_ECDSA_256, none⟩,
   AuthItem.meta 3]

/-- Concrete RSA private key used by witnesses. -/
def privRsaW : PrivateKey :=
  ⟨KeyType.KEY_RSA, 2048, fun _ _ _ => some [7]⟩

/-- Witness for C8: with an explicit ECDSA-256 constraint and an RSA key the
filtered candidate set is empty and the RFC 7427 signing path fails. -/
theorem select_explicit_config_c8_witness :
    select_signature_schemes kmW.hash_algorithm_supported authCfgW
        privRsaW.keyType [] false (fun j => 4096 + 16 * j) =
      configSchemesSpec authCfgW privRsaW.keyType
        kmW.hash_algorithm_supported ∧
    sign_signature_auth kmW authCfgW privRsaW [] false
        (fun j => 4096 + 16 * j) = (Status.FAILED, none) := by
  obtain ⟨h1, h2⟩ := select_explicit_config_c8 kmW authCfgW privRsaW []
    false (fun j => 4096 + 16 * j) (by decide)
  exact ⟨h1, h2 (by decide)⟩

/-- C10: in the self-describing signing path, a candidate whose raw signature
is produced but whose algorithm-identifier encoding fails is treated exactly
like a signing failure — the loop advances to the next candidate in order
(first conjunct), the loop fails exactly when every candidate fails in one of
the two ways (second conjunct), and given a nonempty candidate set and
successful octet computation `sign_signature_auth` returns FAILED precisely
when the loop fails on the keymat-adjusted list (third conjunct). -/
theorem sign_loop_encode_failure_c10 :
    (∀ (priv : PrivateKey) (octets : List Nat) (p : SignatureParams)
        (rest : List SignatureParams) (sig : List Nat),
      priv.sign p.scheme p.params octets = some sig →
      build_signature_auth_data sig p = none →
      signLoop priv octets (p :: rest) = signLoop priv octets rest) ∧
    (∀ (priv : PrivateKey) (octets : List Nat) (l : List SignatureParams),
      signLoop priv octets l = none ↔
        ∀ p ∈ l, candidateFails priv octets p = true) ∧
    (∀ (keymat : Keymat) (auth : List AuthItem) (priv : PrivateKey)
        (defaults : List SignatureParams) (rsaPss : Bool) (addrs : Nat → Nat)
        (octets : List Nat) (l : List SignatureParams),
      select_signature_schemes keymat.hash_algorithm_supported auth
          priv.keyType defaults rsaPss addrs ≠ [] →
      keymat.get_auth_octets false
          (select_signature_schemes keymat.hash_algorithm_supported auth
            priv.keyType defaults rsaPss addrs) = some (octets, l) →
      ((sign_signature_auth keymat auth priv defaults rsaPss addrs).1 =
          Status.FAILED ↔ signLoop priv octets l = none)) := by
  refine ⟨?_, ?_, ?_⟩
  · intro priv octets p rest sig hs hb
    simp [signLoop, hs, hb]
  · intro priv octets l
    induction l with
    | nil => simp [signLoop]
    | cons p rest ih =>
        cases hs : priv.sign p.scheme p.params octets with
        | none =>
            simp [signLoop, hs, ih, candidateFails]
        | some sig =>
            cases hb : build_signature_auth_data sig p with
            | none => simp [signLoop, hs, hb, ih, candidateFails]
            | some out => simp [signLoop, hs, hb, candidateFails]
  · intro keymat auth priv defaults rsaPss addrs octets l hne hoct
    cases hloop : signLoop priv octets l with
    | none => simp [sign_signature_auth, hne, hoct, hloop]
    | some out => simp [sign_signature_auth, hne, hoct, hloop]

/-- Candidate scheme with no OID, used by the C10 witness: signing succeeds
but the algorithm-identifier encoding fails, so the loop must advance. -/
def pNullW : SignatureParams :=
  ⟨SignatureScheme.SIGN_RSA_EMSA_PKCS1_NULL, none⟩

/-- Witness for C10: with a key that signs everything, a candidate whose
scheme has no OID is skipped exactly like a signing failure. -/
theorem sign_loop_encode_failure_c10_witness :
    signLoop privRsaW [9] [pNullW] = signLoop privRsaW [9] [] :=
  sign_loop_encode_failure_c10.1 privRsaW [9] pNullW [] [7] rfl rfl

theorem verifyLoop_all_fail (p : SignatureParams) (octets data : List Nat)
    (suspended : Bool) (auth : List AuthItem) (st : Status)
    (l : List CredEntry)
    (hf : ∀ c ∈ l, c.key.verify p.scheme p.params octets data = false) :
    verifyLoop p octets data suspended auth st l =
      ((if l.isEmpty then st else Status.FAILED), auth, l.length) := by
  induction l generalizing st with
  | nil => simp [verifyLoop]
  | cons c rest ih =>
      have hc := hf c (by simp)
      have hrest := ih Status.FAILED fun c2 hm => hf c2 (by simp [hm])
      simp [verifyLoop, hc, hrest]

/-- C4: when verification reaches the trusted-key enumeration and no
candidate validates the signature, the result is NOT_FOUND when the
credential store yielded zero candidates and FAILED when it yielded at least
one, and these two statuses are distinct (the auth configuration is left
unchanged in both cases). -/
theorem process_no_match_c4 (keymat : Keymat)
    (creds : KeyType → Bool → List CredEntry) (suspended : Bool)
    (auth : List AuthItem) (pl : AuthPayloadW) (kt : KeyType)
    (p0 : SignatureParams) (data octets : List Nat) (p : SignatureParams)
    (hdec : decode_auth_method pl.method pl.data = .ok (kt, p0, data))
    (hoct : get_auth_octets_scheme keymat true p0 = some (octets, p))
    (hf : ∀ c ∈ creds kt (!suspended),
      c.key.verify p.scheme p.params octets data = false) :
    (creds kt (!suspended) = [] →
      process keymat creds suspended auth (some pl) =
        ⟨Status.NOT_FOUND, auth, none, 0⟩) ∧
    (creds kt (!suspended) ≠ [] →
      (process keymat creds suspended auth (some pl)).status =
        Status.FAILED ∧
      (process keymat creds suspended auth (some pl)).auth = auth) ∧
    Status.NOT_FOUND ≠ Status.FAILED := by
  have hloop := verifyLoop_all_fail p octets data suspended auth
    Status.NOT_FOUND (creds kt (!suspended)) hf
  refine ⟨fun he => ?_, fun hne => ?_, by decide⟩
  · simp [process, hdec, hoct, he, verifyLoop]
  · have hemp : (creds kt (!suspended)).isEmpty = false := by
      cases hcl : creds kt (!suspended) with
      | nil => exact absurd hcl hne
      | cons a b => simp
    constructor <;> simp [process, hdec, hoct, hloop, hemp]

/-- Credential store with a single always-failing trusted key, used by the C4
witness. -/
def credsOneFail : KeyType → Bool → List CredEntry :=
  fun _ _ => [⟨⟨fun _ _ _ _ => false⟩, [AuthItem.meta 1]⟩]

/-- Witness for C4: with one trusted key that fails verification the result
is FAILED; NOT_FOUND and FAILED are distinct. -/
theorem process_no_match_c4_witness :
    (process kmW credsOneFail false []
        (some ⟨AuthMethod.AUTH_RSA, [3]⟩)).status = Status.FAILED ∧
    (process kmW credsOneFail false []
        (some ⟨AuthMethod.AUTH_RSA, [3]⟩)).auth = ([] : List AuthItem) := by
  obtain ⟨h1, h2, h3⟩ := process_no_match_c4 kmW credsOneFail false []
    ⟨AuthMethod.AUTH_RSA, [3]⟩ KeyType.KEY_RSA
    ⟨SignatureScheme.SIGN_RSA_EMSA_PKCS1_SHA1, none⟩ [3] []
    ⟨SignatureScheme.SIGN_RSA_EMSA_PKCS1_SHA1, none⟩ rfl rfl
    (by intro c hm; simp [credsOneFail] at hm; subst hm; rfl)
  exact h2 (by simp [credsOneFail])

theorem verifyLoop_first_success (p : SignatureParams)
    (octets data : List Nat) (suspended : Bool) (auth : List AuthItem)
    (st : Status) (pre post : List CredEntry) (c : CredEntry)
    (hpre : ∀ c2 ∈ pre, c2.key.verify p.scheme p.params octets data = false)
    (hc : c.key.verify p.scheme p.params octets data = true) :
    verifyLoop p octets data suspended auth st (pre ++ c :: post) =
      (Status.SUCCESS,
       auth ++ c.auth ++ [AuthItem.authClassPubkey, AuthItem.sigScheme p] ++
         (if suspended then [AuthItem.certValidationSuspended true] else []),
       pre.length + 1) := by
  induction pre generalizing st with
  | nil => simp [verifyLoop, hc]
  | cons c2 rest ih =>
      have hc2 := hpre c2 (by simp)
      have hrest := ih Status.FAILED fun c3 hm => hpre c3 (by simp [hm])
      simp [verifyLoop, hc2, hrest]

/-- C5: when some enumerated trusted key validates the signature, the
enumeration stops at the first such key (exactly the failing prefix plus the
winner are tried), the result is SUCCESS, and the session auth configuration
receives exactly the winner's auth metadata, the authenticated-by-public-key
class entry, the effective signature scheme, and the validation-suspended
marker if and only if online validation was suspended. -/
theorem process_first_success_c5 (keymat : Keymat)
    (creds : KeyType → Bool → List CredEntry) (suspended : Bool)
    (auth : List AuthItem) (pl : AuthPayloadW) (kt : KeyType)
    (p0 : SignatureParams) (data octets : List Nat) (p : SignatureParams)
    (pre post : List CredEntry) (c : CredEntry)
    (hdec : decode_auth_method pl.method pl.data = .ok (kt, p0, data))
    (hoct : get_auth_octets_scheme keymat true p0 = some (octets, p))
    (hcl : creds kt (!suspended) = pre ++ c :: post)
    (hpre : ∀ c2 ∈ pre, c2.key.verify p.scheme p.params octets data = false)
    (hc : c.key.verify p.scheme p.params octets data = true) :
    process keymat creds suspended auth (some pl) =
      ⟨Status.SUCCESS,
       auth ++ c.auth ++ [AuthItem.authClassPubkey, AuthItem.sigScheme p] ++
         (if suspended then [AuthItem.certValidationSuspended true] else []),
       none, pre.length + 1⟩ := by
  have hloop := verifyLoop_first_success p octets data suspended auth
    Status.NOT_FOUND pre post c hpre hc
  simp [process, hdec, hoct, hcl, hloop]

/-- Credential store whose second key verifies everything while the first
fails, used by the C5 witness. -/
def credsSecondOk : KeyType → Bool → List CredEntry :=
  fun _ _ =>
    [⟨⟨fun _ _ _ _ => false⟩, [AuthItem.meta 1]⟩,
     ⟨⟨fun _ _ _ _ => true⟩, [AuthItem.meta 5]⟩]

/-- Witness for C5: with the second trusted key the first to verify, process
succeeds after trying two candidates, merging exactly that key's metadata,
the pubkey class entry, the effective scheme and (suspended condition set)
the suspended marker. -/
theorem process_first_success_c5_witness :
    process kmW credsSecondOk true []
        (some ⟨AuthMethod.AUTH_ECDSA_256, [4]⟩) =
      ⟨Status.SUCCESS,
       [] ++ [AuthItem.meta 5] ++
         [AuthItem.authClassPubkey,
          AuthItem.sigScheme ⟨SignatureScheme.SIGN_ECDSA_256, none⟩] ++
         (if true then [AuthItem.certValidationSuspended true] else []),
       none, 1 + 1⟩ :=
  process_first_success_c5 kmW credsSecondOk true []
    ⟨AuthMethod.AUTH_ECDSA_256, [4]⟩ KeyType.KEY_ECDSA
    ⟨SignatureScheme.SIGN_ECDSA_256, none⟩ [4] []
    ⟨SignatureScheme.SIGN_ECDSA_256, none⟩
    [⟨⟨fun _ _ _ _ => false⟩, [AuthItem.meta 1]⟩] []
    ⟨⟨fun _ _ _ _ => true⟩, [AuthItem.meta 5]⟩ rfl rfl rfl
    (by intro c2 hm; simp at hm; subst hm; rfl) rfl

theorem verifyLoop_no_success_auth (p : SignatureParams)
    (octets data : List Nat) (suspended : Bool) (auth : List AuthItem)
    (st : Status) (l : List CredEntry)
    (h : (verifyLoop p octets data suspended auth st l).1 ≠
      Status.SUCCESS) :
    (verifyLoop p octets data suspended auth st l).2.1 = auth := by
  induction l generalizing st with
  | nil => rfl
  | cons c rest ih =>
      by_cases hc : c.key.verify p.scheme p.params octets data = true
      · exact absurd (by simp [verifyLoop, hc]) h
      · simp only [Bool.not_eq_true] at hc
        simp only [verifyLoop, hc] at h ⊢
        simp only [Bool.false_eq_true, if_false] at h ⊢
        cases hrec : verifyLoop p octets data suspended auth Status.FAILED
            rest with
        | mk s an =>
            have h2 := ih Status.FAILED h
            rw [hrec] at h2
            exact h2

/-- C9: on every non-SUCCESS outcome authentication leaves no partial state —
build attaches no AUTH payload to the outgoing message unless its result is
SUCCESS, and process leaves the session auth configuration untouched unless
its result is SUCCESS. -/
theorem no_partial_state_c9 (keymat : Keymat) (privOpt : Option PrivateKey)
    (ext : Bool) (auth : List AuthItem) (defaults : List SignatureParams)
    (rsaPss : Bool) (addrs : Nat → Nat)
    (creds : KeyType → Bool → List CredEntry) (suspended : Bool)
    (auth2 : List AuthItem) (payload : Option AuthPayloadW) :
    ((build keymat privOpt ext auth defaults rsaPss addrs).1 ≠
        Status.SUCCESS →
      (build keymat privOpt ext auth defaults rsaPss addrs).2 = none) ∧
    ((process keymat creds suspended auth2 payload).status ≠
        Status.SUCCESS →
      (process keymat creds suspended auth2 payload).auth = auth2) := by
  constructor
  · intro hb
    cases privOpt with
    | none => rfl
    | some priv =>
        by_cases hs : (if ext then
            let s := sign_signature_auth keymat auth priv defaults rsaPss
              addrs
            (s.1, AuthMethod.AUTH_DS, s.2)
          else sign_classic keymat priv).1 = Status.SUCCESS
        · exact absurd (by simp [build, hs]) hb
        · simp [build, hs]
  · intro hp
    cases payload with
    | none => rfl
    | some pl =>
        cases hdec : decode_auth_method pl.method pl.data with
        | error r => simp [process, hdec]
        | ok t =>
            obtain ⟨kt, p0, data⟩ := t
            cases hoct : get_auth_octets_scheme keymat true p0 with
            | none => simp [process, hdec, hoct]
            | some op =>
                obtain ⟨octets, p⟩ := op
                have hst : (process keymat creds suspended auth2
                    (some pl)).status =
                  (verifyLoop p octets data suspended auth2 Status.NOT_FOUND
                    (creds kt (!suspended))).1 := by
                  simp [process, hdec, hoct]
                have hab : (process keymat creds suspended auth2
                    (some pl)).auth =
                  (verifyLoop p octets data suspended auth2 Status.NOT_FOUND
                    (creds kt (!suspended))).2.1 := by
                  simp [process, hdec, hoct]
                rw [hab]
                exact verifyLoop_no_success_auth p octets data suspended
                  auth2 Status.NOT_FOUND (creds kt (!suspended))
                  (by rw [← hst]; exact hp)

/-- Witness for C9: a build with no private key attaches nothing, and a
process whose single trusted key rejects the signature leaves the auth
configuration unchanged. -/
theorem no_partial_state_c9_witness :
    (build kmW none true [] [] false (fun j => 4096 + 16 * j)).2 = none ∧
    (process kmW credsOneFail false [AuthItem.meta 9]
        (some ⟨AuthMethod.AUTH_ECDSA_384, [3]⟩)).auth =
      [AuthItem.meta 9] := by
  obtain ⟨h1, h2⟩ := no_partial_state_c9 kmW none true [] [] false
    (fun j => 4096 + 16 * j) credsOneFail false [AuthItem.meta 9]
    (some ⟨AuthMethod.AUTH_ECDSA_384, [3]⟩)
  exact ⟨h1 (by decide), h2 (by decide)⟩

/-- C7 (amended): process with an auth_method tag outside the recognized set
fails with the unsupported-method error, and process with the generic tag
whose payload the algorithm-identifier parser rejects (in particular when the
declared ASN.1 structure overruns the remaining data) fails with the
malformed-payload error; in both cases the auth configuration is untouched.
A one-byte length prefix that merely exceeds the remaining data does not by
itself produce the malformed-payload error: the skip is clamped (see the
counterexample), which is also why decoding never reads out of bounds. -/
theorem process_decode_errors_c7 (keymat : Keymat)
    (creds : KeyType → Bool → List CredEntry) (suspended : Bool)
    (auth : List AuthItem) (pl : AuthPayloadW) :
    (pl.method ∉ ([AuthMethod.AUTH_RSA, AuthMethod.AUTH_ECDSA_256,
        AuthMethod.AUTH_ECDSA_384, AuthMethod.AUTH_ECDSA_521,
        AuthMethod.AUTH_DS] : List AuthMethod) →
      process keymat creds suspended auth (some pl) =
        ⟨Status.INVALID_ARG, auth, some Reason.unsupported, 0⟩) ∧
    (pl.method = AuthMethod.AUTH_DS →
      parse_signature_auth_data pl.data = none →
      process keymat creds suspended auth (some pl) =
        ⟨Status.INVALID_ARG, auth, some Reason.payloadInvalid, 0⟩) := by
  constructor
  · intro hm
    cases hme : pl.method <;> simp [hme] at hm <;>
      simp [process, decode_auth_method, hme]
  · intro hm hp
    simp [process, decode_auth_method, hm, hp]

/-- Witness for C7: a payload with the unrecognized PSK tag is rejected as
unsupported, and a generic-signature payload with empty data is rejected as
malformed; neither touches the auth configuration. -/
theorem process_decode_errors_c7_witness :
    process kmW credsOneFail false [AuthItem.meta 2]
        (some ⟨AuthMethod.AUTH_PSK, [1]⟩) =
      ⟨Status.INVALID_ARG, [AuthItem.meta 2], some Reason.unsupported, 0⟩ ∧
    process kmW credsOneFail false [AuthItem.meta 2]
        (some ⟨AuthMethod.AUTH_DS, []⟩) =
      ⟨Status.INVALID_ARG, [AuthItem.meta 2], some Reason.payloadInvalid,
       0⟩ := by
  constructor
  · exact (process_decode_errors_c7 kmW credsOneFail false [AuthItem.meta 2]
      ⟨AuthMethod.AUTH_PSK, [1]⟩).1 (by decide)
  · exact (process_decode_errors_c7 kmW credsOneFail false [AuthItem.meta 2]
      ⟨AuthMethod.AUTH_DS, []⟩).2 rfl (by decide)

/-- Counterexample for C7 as stated: a generic-signature payload whose
one-byte length prefix (9) exceeds the remaining data (2 bytes) but whose
algorithm-identifier block itself decodes; the skip past the declared length
is clamped, the payload decodes with an empty signature, and process does NOT
fail with the malformed-payload error (here: NOT_FOUND, the credential store
being empty). -/
theorem process_overlong_prefix_c7_counterexample :
    9 > ([9, 2, 0] : List Nat).length - 1 ∧
    (process kmW (fun _ _ => []) false []
        (some ⟨AuthMethod.AUTH_DS, [9, 2, 0]⟩)).status =
      Status.NOT_FOUND ∧
    (process kmW (fun _ _ => []) false []
        (some ⟨AuthMethod.AUTH_DS, [9, 2, 0]⟩)).status ≠
      Status.INVALID_ARG := by
  decide

/-- Default scheme table for an RSA key as enumerated by the standard table
(PKCS1 SHA2-256, SHA2-384, SHA2-512), used for the C1/C2 failing input. -/
def defaultsRsaW : List SignatureParams :=
  [⟨SignatureScheme.SIGN_RSA_EMSA_PKCS1_SHA2_256, none⟩,
   ⟨SignatureScheme.SIGN_RSA_EMSA_PKCS1_SHA2_384, none⟩,
   ⟨SignatureScheme.SIGN_RSA_EMSA_PKCS1_SHA2_512, none⟩]

/-- C1 (code bug, evaluated at the failing input): for an RSA key with no
explicit configuration, a peer supporting every hash, and heap addresses
4096 + 16j for the candidate array elements, the negotiator appends the
PKCS1-SHA2-384 and PKCS1-SHA2-256 fallbacks even though both schemes are
already in the candidate set: the dedup probe compares the scheme tag with
the stored element pointer (`array_get` into a `signature_scheme_t`), which
never matches, so a present fallback IS appended a second time. -/
theorem select_fallback_duplicate_c1 :
    (select_signature_schemes (fun _ => true) [] KeyType.KEY_RSA
        defaultsRsaW false (fun j => 4096 + 16 * j)).map
      SignatureParams.scheme =
    [SignatureScheme.SIGN_RSA_EMSA_PKCS1_SHA2_256,
     SignatureScheme.SIGN_RSA_EMSA_PKCS1_SHA2_384,
     SignatureScheme.SIGN_RSA_EMSA_PKCS1_SHA2_512,
     SignatureScheme.SIGN_RSA_EMSA_PKCS1_SHA2_384,
     SignatureScheme.SIGN_RSA_EMSA_PKCS1_SHA2_256] := by
  decide

/-- C2 (code bug, evaluated at the failing input): the negotiator output for
an RSA key with no explicit configuration and all hashes supported contains
duplicate scheme tags (the broken fallback dedup of C1), refuting the
no-duplicates guarantee; heap addresses 8192 + 16j. -/
theorem select_duplicate_tags_c2 :
    ¬ ((select_signature_schemes (fun _ => true) [] KeyType.KEY_RSA
        defaultsRsaW false (fun j => 8192 + 16 * j)).map
      SignatureParams.scheme).Nodup := by
  decide

theorem fallbackFound_false_of_large_addrs (addrs : Nat → Nat) (count : Nat)
    (scheme : SignatureScheme) (h : ∀ j, 10 < addrs j % 2 ^ 32) :
    fallbackFound addrs count scheme = false := by
  have henc : schemeEnc scheme ≤ 10 := by cases scheme <;> simp [schemeEnc]
  simp only [fallbackFound, List.any_eq_false, decide_eq_true_eq]
  intro j _
  have := h j
  omega
